import Mathlib

/-!
Verification development for the pynotiondb repository: a shallow embedding of
`pynotiondb/mysql_query_parser.py` (MySQLQueryParser) and
`pynotiondb/notion_api.py` (NotionAPI), followed by theorems settling the
specification claims.

The SQL tokenizer/AST builder (sqlglot) is an external collaborator: statements
arrive here already shaped as the expression trees the source walks
(`Stmt`, `WhereClause`, `Pred`), mirroring exactly the attributes the source
reads off those trees. Machine floats never undergo arithmetic in the source
paths we model (float literals are only produced by `extract_set_values` and
consumed by `int()`), so float values are carried as their decimal literal
string and `int()` on them is modelled as decimal truncation.
-/

deriving instance DecidableEq for Except

namespace Pynotiondb

/-! ## Python string/number primitives used by the source -/

/-- Python `str.isdigit()` restricted to ASCII input: non-empty and all digits. -/
def pyIsdigit (s : String) : Bool :=
  s.length > 0 && s.data.all (fun c => c.isDigit)

/-- Python `str.strip()` (ASCII whitespace). -/
def pyStrip (s : String) : String :=
  ⟨((s.data.dropWhile Char.isWhitespace).reverse.dropWhile Char.isWhitespace).reverse⟩

/-- Python `str.lower()` (ASCII). -/
def pyLower (s : String) : String :=
  ⟨s.data.map Char.toLower⟩

/-- Remove the first occurrence of a character: Python `s.replace(c, "", 1)`. -/
def removeFirstChar (c : Char) : List Char → List Char
  | [] => []
  | x :: xs => if x = c then xs else x :: removeFirstChar c xs

/-- Python `s.replace(".", "", 1)` (used by `extract_set_values`). -/
def replaceFirstDot (s : String) : String :=
  ⟨removeFirstChar '.' s.data⟩

/-- Decimal value of a digit sequence (underscores skipped). -/
def digitsVal (cs : List Char) : Nat :=
  cs.foldl (fun n c => if c = '_' then n else 10 * n + (c.toNat - 48)) 0

/-- No two consecutive underscores. -/
def noDoubleUnderscore : List Char → Bool
  | [] => true
  | [_] => true
  | a :: b :: t => !(a = '_' && b = '_') && noDoubleUnderscore (b :: t)

/-- Digit body accepted by Python `int(str)`: non-empty digits, with single
underscores allowed strictly between digits. -/
def pyIntBodyValid (cs : List Char) : Bool :=
  match cs with
  | [] => false
  | _ =>
    cs.all (fun c => c.isDigit || c = '_') &&
    cs.head? != some '_' && cs.getLast? != some '_' && noDoubleUnderscore cs

/-- Python `int(s)` on a string: strip whitespace, optional sign, decimal digits;
`none` models the `ValueError` raise. -/
def pyIntOfStr (s : String) : Option Int :=
  let t := pyStrip s
  match t.data with
  | '+' :: rest => if pyIntBodyValid rest then some (digitsVal rest) else none
  | '-' :: rest => if pyIntBodyValid rest then some (-(digitsVal rest : Int)) else none
  | cs => if pyIntBodyValid cs then some (digitsVal cs) else none

/-- Parsed SQL literal values as the parser leaves them: Python int, float, or
str. Floats are produced only by `extract_set_values` from literals of shape
`digits [. digits]` and are carried as that literal. -/
inductive SqlValue
  | vInt (n : Int)
  | vFloat (lit : String)
  | vStr (s : String)
  deriving DecidableEq

/-- Python `str(value)` on a parsed value. Float display normalization
(e.g. `str(float("2.50"))`) is not modelled; the literals kept here are the
parser's own output. -/
def pyStr : SqlValue → String
  | .vInt n => toString n
  | .vFloat lit => lit
  | .vStr s => s

/-- Python `int(float(lit))` for the non-negative decimal literals produced by
`extract_set_values`: truncation keeps the digits before the dot. -/
def pyFloatTrunc (lit : String) : Int :=
  (digitsVal (lit.data.takeWhile (fun c => c ≠ '.')) : Int)

/-- Python `int(value)` on a parsed value; `none` models the `ValueError`. -/
def pyInt : SqlValue → Option Int
  | .vInt n => some n
  | .vFloat lit => some (pyFloatTrunc lit)
  | .vStr s => pyIntOfStr s

/-! ## MySQLQueryParser (`pynotiondb/mysql_query_parser.py`)

The sqlglot AST is embedded by the shapes the source actually reads:
a comparison predicate contributes its class name (`type(op).__name__`),
its left column identifier and its right literal's raw text (`…this`). -/

/-- The structural kind of a sqlglot comparison node appearing as a WHERE
predicate; `kindName` is its Python class name `type(op).__name__`. -/
inductive SqlOpKind
  | eq | neq | gt | gte | lt | lte | likeK | ilikeK | isK
  deriving DecidableEq

/-- `type(op).__name__` for each sqlglot comparison class. -/
def kindName : SqlOpKind → String
  | .eq => "EQ"
  | .neq => "NEQ"
  | .gt => "GT"
  | .gte => "GTE"
  | .lt => "LT"
  | .lte => "LTE"
  | .likeK => "Like"
  | .ilikeK => "ILike"
  | .isK => "Is"

/-- One simple comparison predicate `column op literal` as read off the AST:
`op.this.this.this` (the column name) and `op.expression.this` (the literal's
raw text). -/
structure Pred where
  opKind : SqlOpKind
  key : String
  value : String
  deriving DecidableEq

/-- The WHERE grammar subset the source handles: a bare predicate, or exactly
one top-level AND of two predicates (`unwrap_where` inspects only these two
shapes; anything else is outside the supported grammar). -/
inductive WhereClause
  | single (p : Pred)
  | conj (l r : Pred)
  deriving DecidableEq

/-- A normalized condition dict `{"parameter": …, "operator": …, "value": …}`. -/
structure Condition where
  parameter : String
  operator : String
  value : SqlValue
  deriving DecidableEq

/-- `MySQLQueryParser.parse_condition`: parameter from the left identifier
(stripped), operator from the node's class name (stripped), value with the
`int(value) if value.isdigit() else value` coercion. -/
def parse_condition (p : Pred) : Condition :=
  { parameter := pyStrip p.key
    operator := pyStrip (kindName p.opKind)
    value := if pyIsdigit p.value then .vInt (digitsVal p.value.data) else .vStr p.value }

/-- `MySQLQueryParser.unwrap_where`: no clause gives `[]`; a top-level And gives
the two sides in order; otherwise the clause itself is one condition. -/
def unwrap_where : Option WhereClause → List Condition
  | none => []
  | some (.single p) => [parse_condition p]
  | some (.conj l r) => [parse_condition l, parse_condition r]

/-- One `{"key": …, "value": …}` SET assignment after coercion. -/
structure SetValue where
  key : String
  value : SqlValue
  deriving DecidableEq

/-- `MySQLQueryParser.extract_set_values` over the `(key, raw literal)` pairs of
the SET clause: digits coerce to int, else a literal whose first dot removed
leaves digits coerces to float, else the string stays. -/
def extract_set_values (pairs : List (String × String)) : List SetValue :=
  pairs.map (fun kv =>
    { key := kv.1
      value :=
        if pyIsdigit kv.2 then .vInt (digitsVal kv.2.data)
        else if pyIsdigit (replaceFirstDot kv.2) then .vFloat kv.2
        else .vStr kv.2 })

/-- Python exceptions raised by the parser paths. -/
inductive PyErr
  | indexError
  | insertTooManyProperties
  | insertTooManyValues
  | invalidStatement
  | parentMissing
  | keyError (key : String)
  | attributeError
  deriving DecidableEq

/-- One `{"property": …, "value": …}` entry of the insert data list. -/
structure InsertPair where
  property : String
  value : String
  deriving DecidableEq

/-- The `for index in range(len(properties)): data.append({...values[index]})`
loop: pairs positionally and raises `IndexError` when `values` runs out while
properties remain. -/
def buildInsertData : List String → List String → Except PyErr (List InsertPair)
  | [], _ => .ok []
  | _ :: _, [] => .error .indexError
  | p :: ps, v :: vs =>
    match buildInsertData ps vs with
    | .error e => .error e
    | .ok rest => .ok ({ property := p, value := v } :: rest)

/-- Result of `extract_insert_statement_info`. -/
structure InsertInfo where
  table_name : String
  data : List InsertPair
  deriving DecidableEq

/-- `MySQLQueryParser.extract_insert_statement_info`: the data loop runs first,
then the two length checks in source order. -/
def extract_insert_statement_info (table : String) (properties values : List String) :
    Except PyErr InsertInfo :=
  match buildInsertData properties values with
  | .error e => .error e
  | .ok data =>
    if properties.length > values.length then .error .insertTooManyProperties
    else if values.length > properties.length then .error .insertTooManyValues
    else .ok { table_name := table, data := data }

/-- A parsed sqlglot statement, by its top-level node class. `selectS` columns
already reflect the source's Star detection (`None` for `SELECT *`). `createS`
carries the column → declared-type list the CREATE statement declares. -/
inductive Stmt
  | insertS (table : String) (properties values : List String)
  | selectS (table : String) (columns : Option (List String)) (whereClause : Option WhereClause)
  | updateS (table : String) (setPairs : List (String × String)) (whereClause : Option WhereClause)
  | deleteS (table : String) (whereClause : Option WhereClause)
  | createS (table : String) (columns : List (String × String))
  deriving DecidableEq

/-- The intermediate dicts `MySQLQueryParser.parse` returns, one shape per
statement kind it handles. `deleteIR` keeps the raw WHERE clause. -/
inductive IR
  | insertIR (table_name : String) (data : List InsertPair)
  | selectIR (table_name : String) (columns : Option (List String))
      (conditions : Option (List Condition))
  | updateIR (table_name : String) (set_values : List SetValue)
      (where_clause : List Condition)
  | deleteIR (table_name : String) (whereClause : Option WhereClause)
  deriving DecidableEq

/-- `MySQLQueryParser.extract_select_statement_info`: conditions list normalized
to `None` when empty. -/
def extract_select_statement_info (table : String) (columns : Option (List String))
    (wc : Option WhereClause) : IR :=
  let conditions := unwrap_where wc
  .selectIR table columns (if conditions.length ≠ 0 then some conditions else none)

/-- `MySQLQueryParser.parse`: dispatch on the statement's node class; any class
outside the four handled ones (in particular sqlglot `Create`) raises
`ValueError("Invalid SQL statement")`. -/
def parse : Stmt → Except PyErr IR
  | .insertS t ps vs => (extract_insert_statement_info t ps vs).map
      (fun info => .insertIR info.table_name info.data)
  | .selectS t cols wc => .ok (extract_select_statement_info t cols wc)
  | .updateS t sets wc => .ok (.updateIR t (extract_set_values sets) (unwrap_where wc))
  | .deleteS t wc => .ok (.deleteIR t wc)
  | .createS _ _ => .error .invalidStatement

/-- `MySQLQueryParser.check_statement`: classification by node class; there is
no branch for sqlglot `Create`, so it falls through to `(False, "unknown")`. -/
def check_statement : Stmt → Bool × String
  | .insertS _ _ _ => (true, "insert")
  | .selectS _ _ _ => (true, "select")
  | .updateS _ _ _ => (true, "update")
  | .deleteS _ _ => (true, "delete")
  | .createS _ _ => (false, "unknown")

/-! ## NotionAPI (`pynotiondb/notion_api.py`) -/

/-- The remote property-type descriptors `format_type` returns:
`{"number": True}`, `{"rich_text": {}}`, `{"title": {}}`. -/
inductive JsonPropTy
  | number
  | richText
  | title
  deriving DecidableEq

/-- `format_type`: maps a declared column type token to its remote descriptor;
any other token raises `Exception(s)`. -/
def format_type : String → Except String JsonPropTy
  | "INT" => .ok .number
  | "VARCHAR" => .ok .richText
  | "title" => .ok .title
  | s => .error s

/-- The database-creation call body `NotionAPI.create` sends. -/
structure CreatePayload where
  title : String
  parent : String
  properties : List (String × JsonPropTy)
  deriving DecidableEq

/-- `NotionAPI.create`: checks the parent page, then fully parses the statement.
`MySQLQueryParser.parse` has no Create branch, so on a CREATE statement it
raises before `parsed_data["columns"]` is ever read; on the other statement
kinds the `"columns"` access fails (`KeyError` for insert/update/delete dicts,
`AttributeError` for the select dict whose `columns` is a list or `None`,
lacking `.items()`). -/
def create (table_parent_page : Option String) (s : Stmt) : Except PyErr CreatePayload :=
  match table_parent_page with
  | none => .error .parentMissing
  | some _ =>
    match parse s with
    | .error e => .error e
    | .ok ir =>
      match ir with
      | .selectIR _ _ _ => .error .attributeError
      | _ => .error (.keyError "columns")

/-- One table-header entry from `get_table_header_info`: `name` holds the remote
property *type* string (e.g. "number", "rich_text", "title"), `id` the remote
property id. -/
structure HeaderEntry where
  id : String
  name : String
  deriving DecidableEq

/-- A condition dict after
`__add_name_and_id_to_parsed_data_for_select_statements` added `name`/`id`. -/
structure SelCondition where
  parameter : String
  operator : String
  value : SqlValue
  name : String
  id : String
  deriving DecidableEq

/-- `__add_name_and_id_to_parsed_data_for_select_statements`: for each
condition, `assert parameter in table_header` (an absent parameter raises
`AssertionError`), then copy the header's `name` and `id` into the condition. -/
def annotateSelect (header : List (String × HeaderEntry)) :
    List Condition → Except String (List SelCondition)
  | [] => .ok []
  | c :: cs =>
    match header.lookup c.parameter with
    | none => .error "AssertionError"
    | some he =>
      match annotateSelect header cs with
      | .error e => .error e
      | .ok rest =>
        .ok ({ parameter := c.parameter, operator := c.operator, value := c.value,
               name := he.name, id := he.id } :: rest)

/-- `NotionAPI.CONDITION_MAPPING`. -/
def CONDITION_MAPPING : String → Option String
  | "EQ" => some "equals"
  | "GT" => some "greater_than"
  | "LT" => some "less_than"
  | "<=" => some "less_than_or_equal_to"
  | ">=" => some "greater_than_or_equal_to"
  | _ => none

/-- One entry of the query payload's `filter.and` list. -/
inductive NotionFilter
  | containsF (property : String) (value : SqlValue)
  | cmp (property : String) (typeName : String) (op : String) (value : SqlValue)
  deriving DecidableEq

/-- The per-condition filter construction inside `NotionAPI.select`: the
`"LIKE"` literal gets a title-contains filter; otherwise the filter is keyed by
the condition's remote type name and the `CONDITION_MAPPING` translation of its
operator, where a missing key raises `KeyError(operator)` — an error message
naming the offending operator. -/
def buildFilter (c : SelCondition) : Except String NotionFilter :=
  if c.operator = "LIKE" then .ok (.containsF c.parameter c.value)
  else
    match CONDITION_MAPPING c.operator with
    | some t => .ok (.cmp c.parameter c.name t c.value)
    | none => .error ("KeyError: '" ++ c.operator ++ "'")

/-- The `for condition in all_conditions_except_page_size` loop: filters built
in order, the first failure aborting. -/
def buildFilters : List SelCondition → Except String (List NotionFilter)
  | [] => .ok []
  | c :: cs =>
    match buildFilter c with
    | .error e => .error e
    | .ok f =>
      match buildFilters cs with
      | .error e => .error e
      | .ok rest => .ok (f :: rest)

/-- The query-database payload `NotionAPI.select` posts. -/
structure QueryPayload where
  page_size : SqlValue
  filters : List NotionFilter
  deriving DecidableEq

/-- The page size a condition list determines: the first condition whose
parameter is the reserved name `page_size` supplies its value, else the
default `DEFAULT_PAGE_SIZE_FOR_SELECT_STATEMENTS = 20`. -/
def pageSizeOfC (cs : List Condition) : SqlValue :=
  match (cs.filter (fun c => c.parameter == "page_size")).head? with
  | some c => c.value
  | none => .vInt 20

/-- The payload-construction part of `NotionAPI.select` (lines 302–368): when
conditions are present they are first annotated with name/id (assertion
included); `page_size_dict` collects the `page_size` pseudo-conditions, the
first of which sets the payload's `page_size` (default 20); when any was found
the filter loop runs over the conditions with parameter `!= "page_size"`,
otherwise over all conditions; `conditions = None` skips annotation and the
filter loop entirely. -/
def select_payload (header : List (String × HeaderEntry)) (conds : Option (List Condition)) :
    Except String QueryPayload :=
  match conds with
  | none => .ok { page_size := .vInt 20, filters := [] }
  | some cs =>
    match annotateSelect header cs with
    | .error e => .error e
    | .ok anns =>
      let psd := anns.filter (fun c => c.parameter == "page_size")
      let rest := if psd.length > 0 then anns.filter (fun c => c.parameter != "page_size") else anns
      match buildFilters rest with
      | .error e => .error e
      | .ok fs =>
        .ok { page_size := match psd.head? with
                           | some c => c.value
                           | none => .vInt 20
              filters := fs }

/-- One data entry fed to `construct_payload_for_pages_creation`: the parsed
property with its resolved remote type string in `name` (insert data after
`__add_name_and_id…`, or an update set-value after key → property renaming). -/
structure InsertDatum where
  property : String
  name : String
  value : SqlValue
  deriving DecidableEq

/-- A value node of the page-creation payload's properties map. -/
inductive PayloadValue
  | number (n : Int)
  | text (typ : String) (content : String)
  | url (s : String)
  deriving DecidableEq

/-- Python dict assignment `d[k] = v`: update an existing key in place,
otherwise append. -/
def dictInsert {β : Type} (k : String) (v : β) : List (String × β) → List (String × β)
  | [] => [(k, v)]
  | (k0, v0) :: rest => if k0 = k then (k0, v) :: rest else (k0, v0) :: dictInsert k v rest

/-- The property loop of `construct_payload_for_pages_creation`: number-typed
properties coerce their value with `int()` (a `ValueError` there aborts the
whole construction); title/rich-text wrap `str(value)` as a single text run;
url stringifies; any other type is logged and dropped. -/
def constructPropsAux (acc : List (String × PayloadValue)) :
    List InsertDatum → Except String (List (String × PayloadValue))
  | [] => .ok acc
  | d :: ds =>
    if d.name = "number" then
      match pyInt d.value with
      | some n => constructPropsAux (dictInsert d.property (.number n) acc) ds
      | none =>
        .error ("invalid literal for int() with base 10: '" ++ pyStr d.value ++ "'")
    else if d.name = "title" ∨ d.name = "rich_text" then
      constructPropsAux (dictInsert d.property (.text d.name (pyStr d.value)) acc) ds
    else if d.name = "url" then
      constructPropsAux (dictInsert d.property (.url (pyStr d.value)) acc) ds
    else
      constructPropsAux acc ds

/-- The page-creation payload: `{"parent": {"database_id": …}, "properties": …}`. -/
structure PagePayload where
  parent : String
  properties : List (String × PayloadValue)
  deriving DecidableEq

/-- `NotionAPI.construct_payload_for_pages_creation`. -/
def construct_payload_for_pages_creation (database_id : String) (data : List InsertDatum) :
    Except String PagePayload :=
  match constructPropsAux [] data with
  | .error e => .error e
  | .ok props => .ok { parent := database_id, properties := props }

/-- A remote HTTP response as `get_json` inspects it: status code plus the
parsed JSON body's optional `message` and `code` fields (`none` for a body
`.json()` cannot parse). -/
structure HttpResponse where
  status_code : Nat
  body : Option (Option String × Option String)
  deriving DecidableEq

/-- `NotionAPI.get_json`: status `>= 400` raises `NotionAPIError` with the
formatted message carrying the status, remote message and remote code
(with the source's fallbacks); anything below 400 is returned unchanged. -/
def get_json (r : HttpResponse) : Except String HttpResponse :=
  if r.status_code ≥ 400 then
    let mc : String × String :=
      match r.body with
      | some (m, c) => (m.getD "Unknown Notion API Error", c.getD "Unknown Code")
      | none => ("Unable to parse", "Unknown Code")
    .error ("Notion API Error (" ++ toString r.status_code ++ "): " ++ mc.1 ++ " (" ++ mc.2 ++ ")")
  else .ok r

/-- The guard `not len(select_statement_response["data"]) >= 0` shared by
`update` and `delete`. -/
def noDataGuard (dataRows : List String) : Bool :=
  !(decide (dataRows.length ≥ 0))

/-- One PATCH issued by `update`: target page URL and the payload with its
`parent` key popped. -/
structure UpdateRequest where
  url : String
  properties : List (String × PayloadValue)
  deriving DecidableEq

/-- The `for entry in select_statement_response["data"]` loop of
`NotionAPI.update`: each iteration constructs the payload afresh, pops its
`parent` key and PATCHes the entry's page. -/
def updateLoop (database_id : String) (data : List InsertDatum) :
    List String → Except String (List UpdateRequest)
  | [] => .ok []
  | i :: is =>
    match construct_payload_for_pages_creation database_id data with
    | .error e => .error e
    | .ok payload =>
      match updateLoop database_id data is with
      | .error e => .error e
      | .ok rest =>
        .ok ({ url := "https://api.notion.com/v1/pages/" ++ i,
               properties := payload.properties } :: rest)

/-- The write phase of `NotionAPI.update` after the internal SELECT returned
the ids in `matchIds`: the unreachable "No Data Found" guard, then one PATCH
per matching record id, in order. -/
def update_flow (database_id : String) (data : List InsertDatum) (matchIds : List String) :
    Except String (List UpdateRequest) :=
  if noDataGuard matchIds then .error "No Data Found"
  else updateLoop database_id data matchIds

/-- The write phase of `NotionAPI.delete`: the same unreachable guard, then one
`{"in_trash": True}` PATCH per matching record id. -/
def delete_flow (matchIds : List String) : Except String (List String) :=
  if noDataGuard matchIds then .error "No Data Found"
  else .ok (matchIds.map (fun i => "https://api.notion.com/v1/pages/" ++ i))

/-- Python `repr` of a parsed condition value as it appears inside
`str(where_clause)` (plain strings, no escapes needed for the literals at
hand). -/
def pyReprValue : SqlValue → String
  | .vInt n => toString n
  | .vFloat lit => lit
  | .vStr s => "'" ++ s ++ "'"

/-- Python `repr` of one condition dict, insertion order
`parameter, operator, value`. -/
def pyReprCond (c : Condition) : String :=
  "\x7b'parameter': '" ++ c.parameter ++ "', 'operator': '" ++ c.operator ++
    "', 'value': " ++ pyReprValue c.value ++ "\x7d"

/-- Python `str` of the parsed condition-dict list. -/
def pyReprCondList (cs : List Condition) : String :=
  "[" ++ String.intercalate ", " (cs.map pyReprCond) ++ "]"

/-- The statement text `NotionAPI.update` hands to its internal SELECT:
`"SELECT * from {} {}".format(table, where_clause)` where `where_clause` is the
already-parsed condition-dict list, so `format` interpolates the Python `str`
of that list. -/
def updateSelectText (table : String) (where_clause : List Condition) : String :=
  "SELECT * from " ++ table ++ " " ++ pyReprCondList where_clause

/-- SQL text of one condition's comparison, for the spec-side reconstruction. -/
def condToSql (c : Condition) : String :=
  let op := match c.operator with
    | "EQ" => "="
    | "GT" => ">"
    | "LT" => "<"
    | "GTE" => ">="
    | "LTE" => "<="
    | o => o
  c.parameter ++ " " ++ op ++ " " ++ (match c.value with
    | .vInt n => toString n
    | .vFloat lit => lit
    | .vStr s => "'" ++ s ++ "'")

/-- Modelled from the spec: the reconstruction the spec describes for update's
first phase — "first runs an equivalent SELECT (same table, same WHERE,
reconstructed as statement text)" — i.e. the WHERE clause rendered back as SQL
text after the table name. -/
def specUpdateSelectText (table : String) (where_clause : List Condition) : String :=
  "SELECT * from " ++ table ++ " WHERE " ++
    String.intercalate " AND " (where_clause.map condToSql)

/-! ### Result projection (`NotionAPI.select`, lines 374–406) -/

/-- A property cell of a remote result entry, by its `type` tag and the content
the projection reads: the runs' `plain_text` values for title/rich-text, the
optional raw value for number and url, nothing for other types. -/
inductive RemotePropData
  | titleP (runs : List String)
  | richTextP (runs : List String)
  | numberP (n : Option Int)
  | urlP (u : Option String)
  | otherP (typ : String)
  deriving DecidableEq

/-- One entry of a remote query-result page. -/
structure Entry where
  id : String
  created_time : String
  last_edited_time : String
  properties : List (String × RemotePropData)
  deriving DecidableEq

/-- A projected row value: `None`, a string, or a number. -/
inductive Cell
  | noneC
  | strC (s : String)
  | numC (n : Int)
  deriving DecidableEq

/-- Python truthiness of a projected value (`None`, `""` and `0` are falsy). -/
def cellTruthy : Cell → Bool
  | .noneC => false
  | .strC s => s ≠ ""
  | .numC n => n ≠ 0

/-- The per-property extraction: missing property (`properties.get(name, {})`)
gives `None`; title/rich-text take the first run's `plain_text` (empty list
falls back to `""`); url and number take the raw value (`None` when null);
any other type gives `None`. -/
def cellOf : Option RemotePropData → Cell
  | none => .noneC
  | some (.titleP runs) => .strC (runs.head?.getD "")
  | some (.richTextP runs) => .strC (runs.head?.getD "")
  | some (.numberP n) => match n with
    | some v => .numC v
    | none => .noneC
  | some (.urlP u) => match u with
    | some s => .strC s
    | none => .noneC
  | some (.otherP _) => .noneC

/-- One iteration of the `for prop_name in property_names` loop body: assign
the lowercased property cell, then re-assign `id`, `created_time` and
`last_edited_time` (the source sets these three inside the loop). -/
def projectStep (e : Entry) (acc : List (String × Cell)) (n : String) : List (String × Cell) :=
  dictInsert "last_edited_time" (.strC e.last_edited_time)
    (dictInsert "created_time" (.strC e.created_time)
      (dictInsert "id" (.strC e.id)
        (dictInsert (pyLower n) (cellOf (e.properties.lookup n)) acc)))

/-- The `single_dict` built for one result entry. With an empty
`property_names` the loop body never runs and the dict stays empty. -/
def projectRow (property_names : List String) (e : Entry) : List (String × Cell) :=
  property_names.foldl (projectStep e) []

/-- The result loop of `NotionAPI.select`: each entry's row is appended to
`data` only when `any(value for value in single_dict.values())` holds, i.e.
when at least one value of the row dict — requested properties and the
id/time fields alike — is truthy. -/
def selectData (property_names : List String) : List Entry → List (List (String × Cell))
  | [] => []
  | e :: es =>
    let row := projectRow property_names e
    if row.any (fun kv => cellTruthy kv.2) then row :: selectData property_names es
    else selectData property_names es

/-- A result entry whose only truthy field is its id: the single requested
property is a number cell holding `0` and both time fields are empty. -/
def sampleEntry : Entry :=
  { id := "abc", created_time := "", last_edited_time := "",
    properties := [("Col1", RemotePropData.numberP (some 0))] }

/-! ## Helper lemmas -/

theorem lookup_dictInsert_self {β : Type} (k : String) (v : β) (l : List (String × β)) :
    (dictInsert k v l).lookup k = some v := by
  induction l with
  | nil => simp [dictInsert, List.lookup]
  | cons hd tl ih =>
    obtain ⟨k0, v0⟩ := hd
    by_cases h : k0 = k
    · simp [dictInsert, h, List.lookup]
    · simp only [dictInsert, if_neg h, List.lookup]
      have : (k == k0) = false := by
        simp [Ne.symm h]
      simp [this, ih]

theorem lookup_dictInsert_ne {β : Type} (k k' : String) (v : β) (l : List (String × β))
    (h : k ≠ k') : (dictInsert k' v l).lookup k = l.lookup k := by
  induction l with
  | nil =>
    have hb : (k == k') = false := by simp [h]
    simp [dictInsert, List.lookup, hb]
  | cons hd tl ih =>
    obtain ⟨k0, v0⟩ := hd
    by_cases h0 : k0 = k'
    · subst h0
      have : (k == k0) = false := by simp [h]
      simp [dictInsert, List.lookup, this]
    · simp only [dictInsert, if_neg h0, List.lookup]
      cases hk : (k == k0) <;> simp [ih]

theorem mem_of_lookup {β : Type} (l : List (String × β)) (k : String) (v : β)
    (h : l.lookup k = some v) : (k, v) ∈ l := by
  induction l with
  | nil => simp [List.lookup] at h
  | cons hd tl ih =>
    obtain ⟨k0, v0⟩ := hd
    by_cases hk : k = k0
    · subst hk
      simp [List.lookup] at h
      simp [h]
    · have : (k == k0) = false := by simp [hk]
      simp [List.lookup, this] at h
      exact List.mem_cons_of_mem _ (ih h)

theorem projectStep_lookup_id (e : Entry) (acc : List (String × Cell)) (n : String) :
    (projectStep e acc n).lookup "id" = some (.strC e.id) := by
  unfold projectStep
  rw [lookup_dictInsert_ne _ _ _ _ (by decide), lookup_dictInsert_ne _ _ _ _ (by decide),
    lookup_dictInsert_self]

theorem foldl_projectStep_lookup_id (e : Entry) :
    ∀ (ns : List String) (acc : List (String × Cell)), ns ≠ [] →
      (ns.foldl (projectStep e) acc).lookup "id" = some (.strC e.id) := by
  intro ns
  induction ns with
  | nil => intro acc h; exact absurd rfl h
  | cons n rest ih =>
    intro acc _
    cases rest with
    | nil => simpa [List.foldl] using projectStep_lookup_id e acc n
    | cons m ms => simpa [List.foldl] using ih (projectStep e acc n) (by simp)

theorem projectRow_lookup_id (ns : List String) (e : Entry) (h : ns ≠ []) :
    (projectRow ns e).lookup "id" = some (.strC e.id) :=
  foldl_projectStep_lookup_id e ns [] h

theorem selectData_eq_filter_map (ns : List String) (es : List Entry) :
    selectData ns es =
      (es.filter (fun e => (projectRow ns e).any (fun kv => cellTruthy kv.2))).map
        (projectRow ns) := by
  induction es with
  | nil => rfl
  | cons e es ih =>
    by_cases h : (projectRow ns e).any (fun kv => cellTruthy kv.2)
    · simp [selectData, h, ih, List.filter_cons]
    · simp [selectData, h, ih, List.filter_cons]

/-! ## Claims -/

/-- C1: the spec (and the repository's own tests `test_create`/`test_notion`,
as well as `NotionAPI.execute`'s `"create"` branch and `NotionAPI.create`)
require CREATE statements to classify as `(True, "create")` and parse to a
Create intermediate statement; but `MySQLQueryParser.check_statement` has no
Create branch and returns `(False, "unknown")`, and `MySQLQueryParser.parse`
raises `ValueError("Invalid SQL statement")`, so `NotionAPI.create` fails too —
even though `format_type` maps `INT` to the numeric descriptor as intended. -/
theorem create_statement_unsupported :
    check_statement (.createS "table1" [("id", "INT")]) = (false, "unknown") ∧
    parse (.createS "table1" [("id", "INT")]) = .error .invalidStatement ∧
    create (some "parent-page") (.createS "table1" [("id", "INT")]) =
      .error .invalidStatement ∧
    format_type "INT" = .ok .number :=
  ⟨rfl, rfl, rfl, rfl⟩

/-- C2: `extract_insert_statement_info` builds the data list before checking
lengths, so an INSERT with more properties than values raises `IndexError`
from `values[index]`, never the "too many properties" message; the "too many
values" direction and the equal-length case behave as the spec says. -/
theorem insert_length_mismatch_behavior :
    extract_insert_statement_info "t" ["a", "b"] ["1"] = .error .indexError ∧
    extract_insert_statement_info "t" ["a"] ["1", "2"] = .error .insertTooManyValues ∧
    extract_insert_statement_info "t" ["a", "b"] ["1", "2"] =
      .ok { table_name := "t",
            data := [{ property := "a", value := "1" }, { property := "b", value := "2" }] } :=
  ⟨rfl, rfl, rfl⟩

/-- C3 counterexample: a result entry whose only requested property value is
the falsy number `0` and whose time fields are empty strings is NOT dropped —
its row appears in `data` because the truthiness check also spans the `id`
field, which is a non-empty string here. -/
theorem select_row_filter_counterexample :
    selectData ["Col1"] [sampleEntry] =
      [[("col1", .numC 0), ("id", .strC "abc"), ("created_time", .strC ""),
        ("last_edited_time", .strC "")]] ∧
    cellTruthy (.numC 0) = false ∧ cellTruthy (.strC "") = false := by
  decide

/-- C3 amended: a row is appended to `data` exactly when some field of the row
dict — the requested property values together with `id`, `created_time` and
`last_edited_time` — is truthy; in particular a row whose `id` is a non-empty
string is always kept (for a non-empty projection list), no matter how falsy
its property values are. -/
theorem select_row_filter_amended :
    (∀ (ns : List String) (es : List Entry),
      selectData ns es =
        (es.filter (fun e => (projectRow ns e).any (fun kv => cellTruthy kv.2))).map
          (projectRow ns)) ∧
    (∀ (ns : List String) (es : List Entry) (e : Entry),
      e ∈ es → e.id ≠ "" → ns ≠ [] → projectRow ns e ∈ selectData ns es) := by
  refine ⟨selectData_eq_filter_map, ?_⟩
  intro ns es e he hid hns
  have hmem : ("id", Cell.strC e.id) ∈ projectRow ns e :=
    mem_of_lookup _ _ _ (projectRow_lookup_id ns e hns)
  have hany : (projectRow ns e).any (fun kv => cellTruthy kv.2) = true :=
    List.any_eq_true.mpr ⟨("id", .strC e.id), hmem, by simpa [cellTruthy] using hid⟩
  rw [selectData_eq_filter_map]
  exact List.mem_map.mpr ⟨e, List.mem_filter.mpr ⟨he, hany⟩, rfl⟩

/-- C3 witness: the amended theorem applied to the concrete entry whose id is
the only truthy content. -/
theorem select_row_filter_amended_witness :
    sampleEntry ∈ [sampleEntry] ∧ sampleEntry.id ≠ "" ∧ (["Col1"] : List String) ≠ [] ∧
    projectRow ["Col1"] sampleEntry ∈ selectData ["Col1"] [sampleEntry] :=
  ⟨by simp, by decide, by decide,
    select_row_filter_amended.2 ["Col1"] [sampleEntry] sampleEntry (by simp) (by decide)
      (by decide)⟩

/-- C4: `NotionAPI.update` builds its internal SELECT's text by interpolating
the already-parsed condition-dict list (`parsed_data.get("where_clause")`), so
for `UPDATE t SET a = 1 WHERE b = 2` it runs
`SELECT * from t [{'parameter': 'b', 'operator': 'EQ', 'value': 2}]` — the
Python `str` of a list of dicts — and not the WHERE clause reconstructed as
statement text as the spec describes. -/
theorem update_select_text_not_where :
    updateSelectText "t" [⟨"b", "EQ", .vInt 2⟩] =
      "SELECT * from t [\x7b'parameter': 'b', 'operator': 'EQ', 'value': 2\x7d]" ∧
    specUpdateSelectText "t" [⟨"b", "EQ", .vInt 2⟩] = "SELECT * from t WHERE b = 2" ∧
    updateSelectText "t" [⟨"b", "EQ", .vInt 2⟩] ≠
      specUpdateSelectText "t" [⟨"b", "EQ", .vInt 2⟩] := by
  refine ⟨?_, ?_, ?_⟩ <;> decide

/-- C8: a bare WHERE predicate yields a one-element condition list and a
top-level AND yields the two conditions in source order; `a=1 AND b='x'`
coerces `1` to an integer and keeps `'x'` a string; and
`SET a = 1, b = '2.5'` coerces to the integer `1` and the float `2.5`. -/
theorem where_and_set_value_coercion :
    (∀ p : Pred, unwrap_where (some (.single p)) = [parse_condition p]) ∧
    (∀ l r : Pred, unwrap_where (some (.conj l r)) = [parse_condition l, parse_condition r]) ∧
    unwrap_where (some (.conj ⟨.eq, "a", "1"⟩ ⟨.eq, "b", "x"⟩)) =
      [⟨"a", "EQ", .vInt 1⟩, ⟨"b", "EQ", .vStr "x"⟩] ∧
    extract_set_values [("a", "1"), ("b", "2.5")] =
      [⟨"a", .vInt 1⟩, ⟨"b", .vFloat "2.5"⟩] :=
  ⟨fun _ => rfl, fun _ _ => rfl, by decide, by decide⟩

/-- C9: `not len(...) >= 0` is false for every list, so the "No Data Found"
branch of `update` and `delete` is unreachable, and with zero matching records
both flows succeed with zero PATCH requests. -/
theorem no_data_found_unreachable :
    (∀ l : List String, noDataGuard l = false) ∧
    (∀ (db : String) (pd : List InsertDatum), update_flow db pd [] = .ok []) ∧
    delete_flow [] = .ok [] := by
  refine ⟨fun l => ?_, fun db pd => ?_, ?_⟩
  · simp [noDataGuard]
  · simp [update_flow, noDataGuard, updateLoop]
  · simp [delete_flow, noDataGuard]

/-- The structural kind names a parsed condition can carry are never the
literal `"LIKE"` (sqlglot's class is `Like`), so the contains branch of the
filter construction never preempts the mapping lookup for parser-produced
operators. -/
theorem kindName_ne_LIKE : ∀ k : SqlOpKind, kindName k ≠ "LIKE" := by
  intro k; cases k <;> decide

/-- C5: the operator translation table is exactly EQ→equals, GT→greater_than,
LT→less_than, "<="→less_than_or_equal_to, ">="→greater_than_or_equal_to, and
for every condition whose operator is a structural kind name produced by the
parser, a table hit builds the type-keyed comparison filter with the
translated operator while a miss raises a `KeyError` naming the offending
operator. -/
theorem condition_mapping_translation :
    (CONDITION_MAPPING "EQ" = some "equals" ∧
     CONDITION_MAPPING "GT" = some "greater_than" ∧
     CONDITION_MAPPING "LT" = some "less_than" ∧
     CONDITION_MAPPING "<=" = some "less_than_or_equal_to" ∧
     CONDITION_MAPPING ">=" = some "greater_than_or_equal_to") ∧
    ∀ (c : SelCondition) (k : SqlOpKind), c.operator = kindName k →
      ((∀ t, CONDITION_MAPPING c.operator = some t →
          buildFilter c = .ok (.cmp c.parameter c.name t c.value)) ∧
       (CONDITION_MAPPING c.operator = none →
          buildFilter c = .error ("KeyError: '" ++ c.operator ++ "'"))) := by
  refine ⟨⟨rfl, rfl, rfl, rfl, rfl⟩, ?_⟩
  intro c k hk
  have hne : c.operator ≠ "LIKE" := by rw [hk]; exact kindName_ne_LIKE k
  constructor
  · intro t ht
    simp [buildFilter, hne, ht]
  · intro hn
    simp [buildFilter, hne, hn]

/-- C5 witness: the translation theorem at a concrete in-table condition
(`EQ` → `equals`) and a concrete out-of-table one (`<=` parses to kind name
`LTE`, which `CONDITION_MAPPING` misses, so the build raises
`KeyError('LTE')`). -/
theorem condition_mapping_translation_witness :
    ((SelCondition.mk "a" "EQ" (.vInt 1) "number" "i1").operator = kindName .eq ∧
      CONDITION_MAPPING "EQ" = some "equals" ∧
      buildFilter ⟨"a", "EQ", .vInt 1, "number", "i1"⟩ =
        .ok (.cmp "a" "number" "equals" (.vInt 1))) ∧
    ((SelCondition.mk "b" "LTE" (.vInt 3) "number" "i2").operator = kindName .lte ∧
      CONDITION_MAPPING "LTE" = none ∧
      buildFilter ⟨"b", "LTE", .vInt 3, "number", "i2"⟩ =
        .error ("KeyError: '" ++ "LTE" ++ "'")) :=
  ⟨⟨rfl, rfl, by
      simpa using
        (condition_mapping_translation.2 ⟨"a", "EQ", .vInt 1, "number", "i1"⟩ .eq rfl).1
          "equals" rfl⟩,
   ⟨rfl, rfl,
      (condition_mapping_translation.2 ⟨"b", "LTE", .vInt 3, "number", "i2"⟩ .lte rfl).2 rfl⟩⟩

/-- C6 counterexample: the status 301 is not in the 2xx range, yet `get_json`
returns the response unchanged instead of raising — the source's threshold is
`status_code >= 400`, not "not 2xx". -/
theorem get_json_non2xx_counterexample :
    ¬(200 ≤ (301 : Nat) ∧ (301 : Nat) ≤ 299) ∧
    get_json ⟨301, none⟩ = .ok ⟨301, none⟩ :=
  ⟨by decide, rfl⟩

/-- C6 amended: responses with status `>= 400` raise the typed API error whose
message carries the remote status code, remote message and remote error code
(with the source's fallbacks for an unparsable body); every response below 400
— 2xx, but also 1xx and 3xx — is returned unchanged. -/
theorem get_json_threshold_amended :
    (∀ r : HttpResponse, r.status_code < 400 → get_json r = .ok r) ∧
    (∀ (r : HttpResponse) (m c : String), 400 ≤ r.status_code →
      r.body = some (some m, some c) →
      get_json r =
        .error ("Notion API Error (" ++ toString r.status_code ++ "): " ++ m ++
          " (" ++ c ++ ")")) ∧
    (∀ r : HttpResponse, 400 ≤ r.status_code → r.body = none →
      get_json r =
        .error ("Notion API Error (" ++ toString r.status_code ++ "): " ++
          "Unable to parse" ++ " (" ++ "Unknown Code" ++ ")")) := by
  refine ⟨fun r h => ?_, fun r m c h hb => ?_, fun r h hb => ?_⟩
  · simp [get_json, Nat.not_le.mpr h]
  · simp [get_json, h, hb]
  · simp [get_json, h, hb]

/-- C6 witness: the amended theorem at the concrete responses 200 (passed
through) and 404 with a parsed error body (raised with all three fields). -/
theorem get_json_threshold_amended_witness :
    ((200 : Nat) < 400 ∧ get_json ⟨200, none⟩ = .ok ⟨200, none⟩) ∧
    (400 ≤ (404 : Nat) ∧
      get_json ⟨404, some (some "Not found", some "object_not_found")⟩ =
        .error "Notion API Error (404): Not found (object_not_found)") :=
  ⟨⟨by decide, get_json_threshold_amended.1 ⟨200, none⟩ (by decide)⟩,
   ⟨by decide, by
      simpa using
        get_json_threshold_amended.2.1 ⟨404, some (some "Not found", some "object_not_found")⟩
          "Not found" "object_not_found" (by decide) rfl⟩⟩

/-- The payload property loop fails (with the `int()` ValueError) whenever the
data list contains a number-typed entry whose value `int()` rejects. -/
theorem constructPropsAux_error_of_bad (d : InsertDatum) (hn : d.name = "number")
    (hv : pyInt d.value = none) :
    ∀ (ds : List InsertDatum) (acc : List (String × PayloadValue)),
      d ∈ ds → ∃ e, constructPropsAux acc ds = .error e := by
  intro ds
  induction ds with
  | nil => intro acc h; cases h
  | cons a t ih =>
    intro acc hmem
    rcases List.mem_cons.mp hmem with rfl | hmem'
    · exact ⟨"invalid literal for int() with base 10: '" ++ pyStr d.value ++ "'",
        by simp [constructPropsAux, hn, hv]⟩
    · by_cases h1 : a.name = "number"
      · cases hva : pyInt a.value with
        | none =>
          exact ⟨"invalid literal for int() with base 10: '" ++ pyStr a.value ++ "'",
            by simp [constructPropsAux, h1, hva]⟩
        | some n =>
          obtain ⟨e, he⟩ := ih (dictInsert a.property (.number n) acc) hmem'
          exact ⟨e, by simp [constructPropsAux, h1, hva, he]⟩
      · by_cases h2 : a.name = "title" ∨ a.name = "rich_text"
        · obtain ⟨e, he⟩ := ih (dictInsert a.property (.text a.name (pyStr a.value)) acc) hmem'
          exact ⟨e, by simp [constructPropsAux, h1, h2, he]⟩
        · by_cases h3 : a.name = "url"
          · obtain ⟨e, he⟩ := ih (dictInsert a.property (.url (pyStr a.value)) acc) hmem'
            exact ⟨e, by simp [constructPropsAux, h1, h2, h3, he]⟩
          · obtain ⟨e, he⟩ := ih acc hmem'
            exact ⟨e, by simp [constructPropsAux, h1, h2, h3, he]⟩

/-- C10: a property resolving to remote type "number" has its value coerced
with `int()`: if some such parsed value is not integer-shaped, the whole
payload construction raises (so the operation aborts before any write), and a
float set-value like `2.5` is truncated to the integer `2` in the payload. -/
theorem number_payload_int_coercion :
    (∀ (db : String) (ds : List InsertDatum) (d : InsertDatum),
      d ∈ ds → d.name = "number" → pyInt d.value = none →
      ∃ e, construct_payload_for_pages_creation db ds = .error e) ∧
    construct_payload_for_pages_creation "db1" [⟨"price", "number", .vFloat "2.5"⟩] =
      .ok { parent := "db1", properties := [("price", .number 2)] } := by
  constructor
  · intro db ds d hmem hn hv
    obtain ⟨e, he⟩ := constructPropsAux_error_of_bad d hn hv ds [] hmem
    exact ⟨e, by simp [construct_payload_for_pages_creation, he]⟩
  · decide

/-- C10 witness: the coercion theorem at a concrete insert datum whose value
`int()` rejects. -/
theorem number_payload_int_coercion_witness :
    ((InsertDatum.mk "price" "number" (.vStr "abc")) ∈
        [InsertDatum.mk "price" "number" (.vStr "abc")] ∧
      (InsertDatum.mk "price" "number" (.vStr "abc")).name = "number" ∧
      pyInt (.vStr "abc") = none) ∧
    ∃ e, construct_payload_for_pages_creation "db1"
        [InsertDatum.mk "price" "number" (.vStr "abc")] = .error e :=
  ⟨⟨by simp, rfl, by decide⟩,
   number_payload_int_coercion.1 "db1" _ (InsertDatum.mk "price" "number" (.vStr "abc"))
     (by simp) rfl (by decide)⟩

/-- Annotation with name/id preserves each condition's parameter and value,
in order. -/
theorem annotate_shape (header : List (String × HeaderEntry)) :
    ∀ (cs : List Condition) (anns : List SelCondition),
      annotateSelect header cs = .ok anns →
      anns.map (fun c => (c.parameter, c.value)) = cs.map (fun c => (c.parameter, c.value)) := by
  intro cs
  induction cs with
  | nil =>
    intro anns h
    simp only [annotateSelect] at h
    injection h with h
    subst h
    rfl
  | cons c cs ih =>
    intro anns h
    simp only [annotateSelect] at h
    split at h
    · exact absurd h (by simp)
    · split at h
      · exact absurd h (by simp)
      · injection h with h
        subst h
        simpa using ih _ (by assumption)

/-- Lists with the same parameter/value image have equally long filtrations by
any parameter predicate. -/
theorem map_pv_filter_length :
    ∀ (anns : List SelCondition) (cs : List Condition) (q : String → Bool),
      anns.map (fun c => (c.parameter, c.value)) = cs.map (fun c => (c.parameter, c.value)) →
      (anns.filter (fun c => q c.parameter)).length =
        (cs.filter (fun c => q c.parameter)).length := by
  intro anns
  induction anns with
  | nil =>
    intro cs q h
    have : cs = [] := List.map_eq_nil_iff.mp h.symm
    subst this
    rfl
  | cons a t ih =>
    intro cs q h
    cases cs with
    | nil => simp at h
    | cons c cs' =>
      simp only [List.map_cons, List.cons.injEq, Prod.mk.injEq] at h
      obtain ⟨⟨hp, _⟩, ht⟩ := h
      have hq2 : q c.parameter = q a.parameter := by rw [hp]
      cases hqa : q a.parameter <;>
        simp [List.filter_cons, hqa, hq2, ih cs' q ht]

/-- Lists with the same parameter/value image have the same first filtered
value under any parameter predicate. -/
theorem map_pv_filter_headval :
    ∀ (anns : List SelCondition) (cs : List Condition) (q : String → Bool),
      anns.map (fun c => (c.parameter, c.value)) = cs.map (fun c => (c.parameter, c.value)) →
      ((anns.filter (fun c => q c.parameter)).head?).map (fun c => c.value) =
        ((cs.filter (fun c => q c.parameter)).head?).map (fun c => c.value) := by
  intro anns
  induction anns with
  | nil =>
    intro cs q h
    have : cs = [] := List.map_eq_nil_iff.mp h.symm
    subst this
    rfl
  | cons a t ih =>
    intro cs q h
    cases cs with
    | nil => simp at h
    | cons c cs' =>
      simp only [List.map_cons, List.cons.injEq, Prod.mk.injEq] at h
      obtain ⟨⟨hp, hv⟩, ht⟩ := h
      cases hqa : q a.parameter with
      | false =>
        have hqc : q c.parameter = false := by rw [← hp]; exact hqa
        simp only [List.filter_cons, hqa, hqc, Bool.false_eq_true, if_false]
        exact ih cs' q ht
      | true =>
        have hqc : q c.parameter = true := by rw [← hp]; exact hqa
        simp only [List.filter_cons, hqa, hqc, if_true]
        simp [hv]

/-- Every condition is either a `page_size` pseudo-condition or not: the two
filtrations partition the list. -/
theorem filter_page_size_split (l : List SelCondition) :
    (l.filter (fun c => c.parameter == "page_size")).length +
      (l.filter (fun c => c.parameter != "page_size")).length = l.length := by
  simp only [bne]
  induction l with
  | nil => rfl
  | cons a t ih =>
    cases h : (a.parameter == "page_size") <;>
      simp [List.filter_cons, h] <;> omega

/-- A successful filter build produces one filter per condition. -/
theorem buildFilters_length :
    ∀ (cs : List SelCondition) (fs : List NotionFilter),
      buildFilters cs = .ok fs → fs.length = cs.length := by
  intro cs
  induction cs with
  | nil =>
    intro fs h
    simp only [buildFilters] at h
    injection h with h
    subst h
    rfl
  | cons c t ih =>
    intro fs h
    simp only [buildFilters] at h
    split at h
    · exact absurd h (by simp)
    · split at h
      · exact absurd h (by simp)
      · injection h with h
        subst h
        simpa using ih _ (by assumption)

/-- C7 counterexample: the `page_size` pseudo-condition does not reach payload
construction when the table header lacks a property of that name — the
annotation step's `assert parameter in table_header` raises `AssertionError`
first, so no payload (and no `page_size` field) is produced at all. -/
theorem page_size_assert_counterexample :
    select_payload [] (some [⟨"page_size", "EQ", .vInt 5⟩]) = .error "AssertionError" :=
  rfl

/-- C7 amended: provided the payload build succeeds (which requires every
condition parameter — the `page_size` pseudo-condition included — to name a
property of the table header), the payload's `page_size` is the value of the
first `page_size` condition, defaulting to 20 when there is none, and the
filter conjunction holds exactly one entry per non-`page_size` condition; a
SELECT with no conditions at all requests the default page size 20 with an
empty filter list. -/
theorem page_size_interception_amended :
    (∀ (header : List (String × HeaderEntry)) (cs : List Condition) (p : QueryPayload),
      select_payload header (some cs) = .ok p →
      p.page_size = pageSizeOfC cs ∧
      p.filters.length = (cs.filter (fun c => c.parameter != "page_size")).length) ∧
    (∀ header : List (String × HeaderEntry),
      select_payload header none = .ok { page_size := .vInt 20, filters := [] }) := by
  constructor
  · intro header cs p h
    simp only [select_payload] at h
    split at h
    · exact absurd h (by simp)
    · rename_i anns ha
      have hshape := annotate_shape header cs anns ha
      have hhv := map_pv_filter_headval anns cs (fun s => s == "page_size") hshape
      have hlenEq := map_pv_filter_length anns cs (fun s => s != "page_size") hshape
      have hlenPS := map_pv_filter_length anns cs (fun s => s == "page_size") hshape
      by_cases hpos : (anns.filter (fun c => c.parameter == "page_size")).length > 0
      · rw [if_pos hpos] at h
        split at h
        · exact absurd h (by simp)
        · rename_i fs hbf
          injection h with h
          subst h
          refine ⟨?_, ?_⟩
          · show (match (anns.filter (fun c => c.parameter == "page_size")).head? with
              | some c => c.value
              | none => SqlValue.vInt 20) = pageSizeOfC cs
            unfold pageSizeOfC
            cases hp1 : (anns.filter (fun c => c.parameter == "page_size")).head? with
            | none =>
              rw [hp1] at hhv
              cases hp2 : (cs.filter (fun c => c.parameter == "page_size")).head? with
              | none => simp
              | some c0 => rw [hp2] at hhv; simp at hhv
            | some a0 =>
              rw [hp1] at hhv
              cases hp2 : (cs.filter (fun c => c.parameter == "page_size")).head? with
              | none => rw [hp2] at hhv; simp at hhv
              | some c0 => rw [hp2] at hhv; simp at hhv; simp [hhv]
          · show fs.length = (cs.filter (fun c => c.parameter != "page_size")).length
            rw [buildFilters_length _ _ hbf]
            exact hlenEq
      · rw [if_neg hpos] at h
        split at h
        · exact absurd h (by simp)
        · rename_i fs hbf
          injection h with h
          subst h
          have hzero : (anns.filter (fun c => c.parameter == "page_size")).length = 0 := by
            omega
          have hnilA : anns.filter (fun c => c.parameter == "page_size") = [] :=
            List.length_eq_zero.mp hzero
          have hzeroC : (cs.filter (fun c => c.parameter == "page_size")).length = 0 := by
            rw [← hlenPS]; exact hzero
          refine ⟨?_, ?_⟩
          · show (match (anns.filter (fun c => c.parameter == "page_size")).head? with
              | some c => c.value
              | none => SqlValue.vInt 20) = pageSizeOfC cs
            unfold pageSizeOfC
            rw [hnilA, List.length_eq_zero.mp hzeroC]
            rfl
          · show fs.length = (cs.filter (fun c => c.parameter != "page_size")).length
            have h1 : fs.length = anns.length := buildFilters_length _ _ hbf
            have h2 : (anns.filter (fun c => c.parameter != "page_size")).length =
                (cs.filter (fun c => c.parameter != "page_size")).length := hlenEq
            have h3 := filter_page_size_split anns
            omega
  · intro header
    rfl

/-- C7 witness: the amended theorem at a concrete SELECT whose conditions are
a `page_size = 5` pseudo-condition plus one real condition, against a header
containing both parameters. -/
theorem page_size_interception_amended_witness :
    select_payload [("page_size", ⟨"idp", "number"⟩), ("a", ⟨"ida", "number"⟩)]
        (some [⟨"page_size", "EQ", .vInt 5⟩, ⟨"a", "GT", .vInt 3⟩]) =
      .ok { page_size := .vInt 5,
            filters := [.cmp "a" "number" "greater_than" (.vInt 3)] } ∧
    (QueryPayload.mk (.vInt 5) [.cmp "a" "number" "greater_than" (.vInt 3)]).page_size =
      pageSizeOfC [⟨"page_size", "EQ", .vInt 5⟩, ⟨"a", "GT", .vInt 3⟩] ∧
    (QueryPayload.mk (.vInt 5) [.cmp "a" "number" "greater_than" (.vInt 3)]).filters.length =
      (([⟨"page_size", "EQ", .vInt 5⟩, ⟨"a", "GT", .vInt 3⟩] : List Condition).filter
          (fun c => c.parameter != "page_size")).length :=
  ⟨by decide,
    (page_size_interception_amended.1
      [("page_size", ⟨"idp", "number"⟩), ("a", ⟨"ida", "number"⟩)]
      [⟨"page_size", "EQ", .vInt 5⟩, ⟨"a", "GT", .vInt 3⟩]
      (QueryPayload.mk (.vInt 5) [.cmp "a" "number" "greater_than" (.vInt 3)])
      (by decide)).1,
    (page_size_interception_amended.1
      [("page_size", ⟨"idp", "number"⟩), ("a", ⟨"ida", "number"⟩)]
      [⟨"page_size", "EQ", .vInt 5⟩, ⟨"a", "GT", .vInt 3⟩]
      (QueryPayload.mk (.vInt 5) [.cmp "a" "number" "greater_than" (.vInt 3)])
      (by decide)).2⟩

end Pynotiondb
